import Mathlib

/-
  A shallow embedding of the `politodebate` command-line utility
  (src/cli.py and src/client.py) together with proofs about the
  behaviour of its command shell and messaging-client facade.

  The shell (`Cli`) is embedded as pure functions over an explicit
  session state; each command handler returns the successor state, the
  list of printed lines, the list of facade calls it issued, and the
  JSON files it wrote.  The external messaging service is a parameter
  (a `Facade` record of response functions), so theorems quantify over
  every possible behaviour of the service.
-/

namespace PolitoDebate

/-- Timestamps (Python `datetime.datetime` values) are modelled as
integers with their usual total order; only their ordering and their
rendering to a string matter to the code under verification. -/
abbrev DateTime := Int

/-- Models Python's `datetime.isoformat()`: the ISO-8601 rendering of a
timestamp.  The exact character format of the external standard library
is irrelevant to the claims; what matters is that it is a string
determined by the timestamp. -/
def DateTime.isoformat (d : DateTime) : String := toString d

/-- A message as the shell sees it (`m.id`, `m.sender_id`, `m.text`,
`m.date` in src/cli.py); the timestamp is optional. -/
structure Message where
  id : Int
  sender_id : Int
  text : String
  date : Option DateTime
deriving DecidableEq

/-- A chat participant (`u.id`, `u.username`, `u.first_name`,
`u.last_name` in src/cli.py). -/
structure User where
  id : Int
  username : Option String
  first_name : String
  last_name : String
deriving DecidableEq

/-- A dialog entry as returned by the service (`chat.name`, `chat.id`
in src/client.py). -/
structure Chat where
  id : Int
  name : String
deriving DecidableEq

/-- A message yielded by the service's backward message iterator in
`Client.messages_between_dates`; messages from the iterator always
carry a timestamp (`m.date`). -/
structure StreamMessage where
  id : Int
  date : DateTime
deriving DecidableEq

/-- In-memory JSON values, the shape of data handed to `json.dump`. -/
inductive Json where
  | null : Json
  | int : Int → Json
  | str : String → Json
  | arr : List Json → Json
  | obj : List (String × Json) → Json

/-- The keys of a JSON object, in order; other JSON values have none. -/
def Json.keys : Json → List String
  | .obj kvs => kvs.map (fun kv => kv.1)
  | _ => []

/-- Look a key up in a JSON object. -/
def Json.lookupKey (j : Json) (k : String) : Option Json :=
  match j with
  | .obj kvs => (kvs.find? (fun kv => kv.1 == k)).map (fun kv => kv.2)
  | _ => none

/-- Models Python's `str.lower()`: lower-case every character. -/
def pyLower (s : String) : String := ⟨s.data.map Char.toLower⟩

/-- Strip leading and trailing whitespace from a character list, as
Python's `int(str)` does before converting. -/
def pyStripChars (l : List Char) : List Char :=
  ((l.dropWhile Char.isWhitespace).reverse.dropWhile Char.isWhitespace).reverse

/-- Models Python's `int(str)` conversion on its decimal form: optional
surrounding whitespace, an optional sign, then a non-empty run of
decimal digits; anything else raises (returns `none`). -/
def pyDigits (l : List Char) : Option Nat :=
  if l.isEmpty then none
  else l.foldl
    (fun acc c =>
      match acc with
      | none => none
      | some n => if c.isDigit then some (n * 10 + (c.toNat - 48)) else none)
    (some 0)

/-- Python `int(s)`: parse `s` as a (signed) decimal integer, `none` on
failure. -/
def pyInt (s : String) : Option Int :=
  match pyStripChars s.data with
  | [] => none
  | c :: rest =>
    if c = '-' then (pyDigits rest).map (fun n => -(n : Int))
    else if c = '+' then (pyDigits rest).map (fun n => (n : Int))
    else (pyDigits (c :: rest)).map (fun n => (n : Int))

namespace Client

/-- `Client.chat_by_id` (src/client.py lines 21-26): scan the account's
dialogs in order and return the id of the first chat whose name equals
the requested name, or `None` when no name matches.  The dialog list
returned by the service is passed explicitly. -/
def chat_by_id (name : String) : List Chat → Option Int
  | [] => none
  | chat :: rest =>
    if chat.name = name then some chat.id else chat_by_id name rest

/-- `Client.messages_between_dates` (src/client.py lines 43-68): walk
the service's backward message iterator; stop at the first message
strictly older than `ts`, and collect, in encounter order, the messages
whose date lies in the inclusive range `[ts, te]`.  The finite sequence
of messages the iterator would yield is passed explicitly. -/
def messages_between_dates (ts te : DateTime) : List StreamMessage → List StreamMessage
  | [] => []
  | m :: rest =>
    if m.date < ts then []
    else if ts ≤ m.date ∧ m.date ≤ te then
      m :: messages_between_dates ts te rest
    else
      messages_between_dates ts te rest

end Client

namespace Cli

/-- The shell's session state: the running flag, the currently selected
chat (`self.current`, `None` at startup) and the default fetch limit
(`self.limit`). -/
structure CliState where
  running : Bool
  current : Option Int
  limit : Int
deriving DecidableEq

/-- `Cli.__init__` (src/cli.py lines 8-12): the stored default limit is
`limit if limit else 1000`, i.e. the supplied limit when it is present
and truthy (non-zero), and 1000 when it is missing or falsy. -/
def initLimit (limit : Option Int) : Int :=
  match limit with
  | none => 1000
  | some l => if l = 0 then 1000 else l

/-- `Cli.__init__`: the full startup state. -/
def initState (limit : Option Int) : CliState :=
  { running := true, current := none, limit := initLimit limit }

/-- Modelled from the spec: the messaging-client facade object the
shell calls.  The shell invokes `get_chat_id`, `get_all_messages`,
`get_users` and `delete_messages` on its client; the object carrying
those method names is not part of the two source files (the `Client`
class in src/client.py exposes the same operations as `chat_by_id`,
`all_messages_in_chat`, `all_users` and `canc_all_messages`).  Per the
spec, `delete_messages` returns the number of messages actually
removed.  Each field gives the service's response to one call. -/
structure Facade where
  get_chat_id : String → Option Int
  get_all_messages : Int → Int → List Message
  get_users : Int → List User
  delete_messages : Int → List Int → Int

/-- One network call issued by the shell to the facade, with its
arguments. -/
inductive FacadeCall where
  | getChatId (name : String)
  | getAllMessages (chat_id : Int) (n : Int)
  | getUsers (chat_id : Int)
  | deleteMessages (chat_id : Int) (ids : List Int)
deriving DecidableEq

/-- The observable effect of running one command handler: the successor
session state, the printed lines in order, the facade calls issued in
order, and the files written (path and JSON content). -/
structure Step where
  state : CliState
  output : List String
  calls : List FacadeCall
  files : List (String × Json)

/-- Python truthiness of `self.current` as tested by `not self.current`
(src/cli.py lines 84, 105, 126): falsy when no chat was ever selected
(`None`) and also when the selected identifier is the integer 0. -/
def currentFalsy : Option Int → Bool
  | none => true
  | some c => c = 0

/-- Python truthiness of the parsed target as tested by `not target`:
falsy when parsing returned `None` and also for an empty string. -/
def targetFalsy : Option String → Bool
  | none => true
  | some t => t = ""

/-- `Cli.parse_limit` (src/cli.py lines 60-72): no arguments gives
`(None, None)`; one argument gives the lower-cased target with the
session's default limit; two or more give the lower-cased first
argument with `int(args[1])`, except that when that conversion raises
the whole result collapses to `(None, None)`. -/
def parse_limit (s : CliState) (args : List String) : Option String × Option Int :=
  match args with
  | [] => (none, none)
  | [a] => (some (pyLower a), some s.limit)
  | a :: b :: _ =>
    match pyInt b with
    | some n => (some (pyLower a), some n)
    | none => (none, none)

/-- `Cli.cmd_sel` (src/cli.py lines 45-58): with no arguments print the
usage line; otherwise join the arguments into a display name, ask the
facade to resolve it, print "Chat not found." on failure (selection
unchanged), and on success record the identifier and print
confirmation. -/
def cmd_sel (f : Facade) (s : CliState) (args : List String) : Step :=
  if args.isEmpty then
    ⟨s, ["Usage: select <chat-name>"], [], []⟩
  else
    let name := String.intercalate " " args
    match f.get_chat_id name with
    | none =>
      ⟨s, ["Chat not found."], [.getChatId name], []⟩
    | some chat_id =>
      ⟨{ s with current := some chat_id },
        ["Chat selected: " ++ name], [.getChatId name], []⟩

/-- `Cli.list_messages` (src/cli.py lines 138-141): fetch up to `n`
messages and print one line per message. -/
def list_messages (f : Facade) (s : CliState) (chat_id : Int) (n : Int) : Step :=
  let msgs := f.get_all_messages chat_id n
  ⟨s,
    msgs.map (fun m =>
      "[id=" ++ toString m.id ++ "] sender=" ++ toString m.sender_id
        ++ " text=" ++ m.text),
    [.getAllMessages chat_id n], []⟩

/-- Render an optional string the way Python prints it inside an
f-string (`None` for a missing value). -/
def pyShowOptStr : Option String → String
  | none => "None"
  | some t => t

/-- `Cli.list_users` (src/cli.py lines 143-146): fetch the participant
list and print one line per user. -/
def list_users (f : Facade) (s : CliState) (chat_id : Int) : Step :=
  let users := f.get_users chat_id
  ⟨s,
    users.map (fun u =>
      "[id=" ++ toString u.id ++ "] username=" ++ pyShowOptStr u.username
        ++ " first_name=" ++ u.first_name ++ " last_name=" ++ u.last_name),
    [.getUsers chat_id], []⟩

/-- The JSON records built by `Cli.save_messages` (src/cli.py lines
151-156): one object per fetched message with keys `id`, `from`,
`text`, `date`, where `date` is the ISO rendering of the timestamp or
`null` when the message has none. -/
def save_messages_data (msgs : List Message) : List Json :=
  msgs.map (fun m =>
    Json.obj
      [("id", Json.int m.id),
       ("from", Json.int m.sender_id),
       ("text", Json.str m.text),
       ("date",
         match m.date with
         | some d => Json.str (DateTime.isoformat d)
         | none => Json.null)])

/-- `Cli.save_messages` (src/cli.py lines 148-165): fetch up to `n`
messages, build the records, write them as a JSON array to a
timestamped file under `out/`, and print the summary line.  The
formatted wall-clock timestamp is passed as the argument `ts`. -/
def save_messages (f : Facade) (ts : String) (s : CliState) (chat_id : Int) (n : Int) : Step :=
  let msgs := f.get_all_messages chat_id n
  let data := save_messages_data msgs
  let path := "out/messages_" ++ ts ++ ".json"
  ⟨s,
    ["Saved " ++ toString data.length ++ " messages to " ++ path],
    [.getAllMessages chat_id n],
    [(path, Json.arr data)]⟩

/-- The JSON records built by `Cli.save_users` (src/cli.py lines
170-175). -/
def save_users_data (users : List User) : List Json :=
  users.map (fun u =>
    Json.obj
      [("id", Json.int u.id),
       ("username",
         match u.username with
         | some t => Json.str t
         | none => Json.null),
       ("first_name", Json.str u.first_name),
       ("last_name", Json.str u.last_name)])

/-- `Cli.save_users` (src/cli.py lines 167-184). -/
def save_users (f : Facade) (ts : String) (s : CliState) (chat_id : Int) : Step :=
  let users := f.get_users chat_id
  let data := save_users_data users
  let path := "out/users_" ++ ts ++ ".json"
  ⟨s,
    ["Saved " ++ toString data.length ++ " users to " ++ path],
    [.getUsers chat_id],
    [(path, Json.arr data)]⟩

/-- `Cli.delete_messages` (src/cli.py lines 186-195): fetch up to `n`
messages, collect their ids; with no ids print "No messages to delete."
and stop; otherwise issue the bulk delete and print the reported
count. -/
def delete_messages (f : Facade) (s : CliState) (chat_id : Int) (n : Int) : Step :=
  let msgs := f.get_all_messages chat_id n
  let ids := msgs.map (fun m => m.id)
  if ids.isEmpty then
    ⟨s, ["No messages to delete."], [.getAllMessages chat_id n], []⟩
  else
    let deleted := f.delete_messages chat_id ids
    ⟨s, ["Deleted " ++ toString deleted ++ " messages"],
      [.getAllMessages chat_id n, .deleteMessages chat_id ids], []⟩

/-- `Cli.cmd_list` (src/cli.py lines 77-93). -/
def cmd_list (f : Facade) (s : CliState) (args : List String) : Step :=
  let tc := parse_limit s args
  let target := tc.1
  let count := tc.2
  if targetFalsy target then
    ⟨s, ["Usage: list messages|users [N]"], [], []⟩
  else if currentFalsy s.current then
    ⟨s, ["No chat selected"], [], []⟩
  else
    let t := target.getD ""
    let cur := s.current.getD 0
    if t = "m" ∨ t = "msg" ∨ t = "message" ∨ t = "messages" then
      list_messages f s cur (count.getD 0)
    else if t = "u" ∨ t = "user" ∨ t = "users" then
      list_users f s cur
    else
      ⟨s, ["Unknown list target. Use messages|users."], [], []⟩

/-- `Cli.cmd_save` (src/cli.py lines 98-114); the formatted wall-clock
timestamp used for the output file name is passed as `ts`. -/
def cmd_save (f : Facade) (ts : String) (s : CliState) (args : List String) : Step :=
  let tc := parse_limit s args
  let target := tc.1
  let count := tc.2
  if targetFalsy target then
    ⟨s, ["Usage: save messages|users [N]"], [], []⟩
  else if currentFalsy s.current then
    ⟨s, ["No chat selected"], [], []⟩
  else
    let t := target.getD ""
    let cur := s.current.getD 0
    if t = "m" ∨ t = "msg" ∨ t = "message" ∨ t = "messages" then
      save_messages f ts s cur (count.getD 0)
    else if t = "u" ∨ t = "user" ∨ t = "users" then
      save_users f ts s cur
    else
      ⟨s, ["Unknown save target. Use messages|users."], [], []⟩

/-- `Cli.cmd_delete` (src/cli.py lines 119-133). -/
def cmd_delete (f : Facade) (s : CliState) (args : List String) : Step :=
  let tc := parse_limit s args
  let target := tc.1
  let count := tc.2
  if targetFalsy target then
    ⟨s, ["Usage: delete messages [N]"], [], []⟩
  else if currentFalsy s.current then
    ⟨s, ["No chat selected"], [], []⟩
  else
    let t := target.getD ""
    let cur := s.current.getD 0
    if t = "m" ∨ t = "msg" ∨ t = "message" ∨ t = "messages" then
      delete_messages f s cur (count.getD 0)
    else
      ⟨s, ["Unknown delete target. Only \x27messages\x27 is supported."], [], []⟩

end Cli

/-! ## Sample data used by witnesses -/

/-- A facade on which every fetch comes back empty and every lookup
fails. -/
def emptyFacade : Cli.Facade where
  get_chat_id := fun _ => none
  get_all_messages := fun _ _ => []
  get_users := fun _ => []
  delete_messages := fun _ _ => 0

/-- Three concrete messages. -/
def sampleMessages : List Message :=
  [⟨11, 100, "hello", some 5⟩, ⟨12, 100, "world", none⟩, ⟨13, 101, "again", some 7⟩]

/-- A facade whose message fetch returns three messages and whose bulk
delete reports every requested id as removed. -/
def countingFacade : Cli.Facade where
  get_chat_id := fun _ => none
  get_all_messages := fun _ _ => sampleMessages
  get_users := fun _ => []
  delete_messages := fun _ ids => ids.length

/-- A facade that resolves every chat name to the identifier 0. -/
def zeroFacade : Cli.Facade where
  get_chat_id := fun _ => some 0
  get_all_messages := fun _ _ => sampleMessages
  get_users := fun _ => []
  delete_messages := fun _ ids => ids.length

/-- The startup session state with no limit supplied. -/
def state0 : Cli.CliState := Cli.initState none

/-- A session state in which chat 42 is selected. -/
def stateSel : Cli.CliState := { running := true, current := some 42, limit := 1000 }

/-! ## Helper lemmas -/

/-- When the parsed target is a non-empty string but the session's
current chat is falsy, each of the three data commands prints
"No chat selected" and stops. -/
lemma cmd_no_chat_guard (f : Cli.Facade) (ts : String) (s : Cli.CliState)
    (args : List String) (t : String)
    (hcf : Cli.currentFalsy s.current = true)
    (ht : (Cli.parse_limit s args).1 = some t) (hne : t ≠ "") :
    Cli.cmd_list f s args = ⟨s, ["No chat selected"], [], []⟩ ∧
    Cli.cmd_save f ts s args = ⟨s, ["No chat selected"], [], []⟩ ∧
    Cli.cmd_delete f s args = ⟨s, ["No chat selected"], [], []⟩ := by
  refine ⟨?_, ?_, ?_⟩ <;>
    simp [Cli.cmd_list, Cli.cmd_save, Cli.cmd_delete, ht, hcf,
      Cli.targetFalsy, hne]

/-! ## Claim theorems -/

/-- Claim C2: for every inclusive date range `[ts, te]` and every
finite backward traversal of a chat's messages, the date-range fetch
returns exactly the messages encountered before the first message with
a timestamp strictly older than `ts`, restricted to those whose
timestamp lies in `[ts, te]`, in encounter order. -/
theorem messages_between_dates_takeWhile_filter
    (ts te : DateTime) (stream : List StreamMessage) :
    Client.messages_between_dates ts te stream =
      (stream.takeWhile (fun m => !decide (m.date < ts))).filter
        (fun m => decide (ts ≤ m.date) && decide (m.date ≤ te)) := by
  induction stream with
  | nil => rfl
  | cons m rest ih =>
    by_cases h1 : m.date < ts
    · simp [Client.messages_between_dates, h1]
    · have hts : ts ≤ m.date := le_of_not_lt h1
      by_cases h2 : m.date ≤ te
      · simp [Client.messages_between_dates, h1, h2, hts, ih]
      · simp [Client.messages_between_dates, h1, h2, hts, ih]

/-- Claim C4: chat resolution linear-scans the account's chat list and
returns the identifier of the first chat whose name equals the
requested name exactly (case-sensitive string equality), or `none`
when no chat's name matches. -/
theorem chat_by_id_first_exact_match (name : String) (chats : List Chat) :
    Client.chat_by_id name chats =
      (chats.find? (fun c => c.name == name)).map Chat.id := by
  induction chats with
  | nil => rfl
  | cons c rest ih =>
    by_cases h : c.name = name
    · simp [Client.chat_by_id, List.find?, h]
    · have hb : (c.name == name) = false := by simp [h]
      simp [Client.chat_by_id, List.find?, h, ih, hb]

/-- Claim C3: the list/save/delete argument parser maps an empty list
to `(none, none)`; a single argument to that argument lower-cased with
the configured default limit; two or more arguments to the first
argument lower-cased with the second parsed as an integer; and when
the second argument fails integer parsing, both components become
`none` (the syntactically valid target is discarded), so each command
prints its usage string instead of a numeric-format error. -/
theorem parse_limit_spec (s : Cli.CliState) :
    Cli.parse_limit s [] = (none, none) ∧
    (∀ a : String, Cli.parse_limit s [a] = (some (pyLower a), some s.limit)) ∧
    (∀ (a b : String) (rest : List String) (n : Int), pyInt b = some n →
      Cli.parse_limit s (a :: b :: rest) = (some (pyLower a), some n)) ∧
    (∀ (a b : String) (rest : List String), pyInt b = none →
      Cli.parse_limit s (a :: b :: rest) = (none, none)) ∧
    (∀ (f : Cli.Facade) (ts : String) (a b : String) (rest : List String),
      pyInt b = none →
      (Cli.cmd_list f s (a :: b :: rest)).output = ["Usage: list messages|users [N]"] ∧
      (Cli.cmd_save f ts s (a :: b :: rest)).output = ["Usage: save messages|users [N]"] ∧
      (Cli.cmd_delete f s (a :: b :: rest)).output = ["Usage: delete messages [N]"]) := by
  refine ⟨rfl, fun a => rfl, ?_, ?_, ?_⟩
  · intro a b rest n h
    simp [Cli.parse_limit, h]
  · intro a b rest h
    simp [Cli.parse_limit, h]
  · intro f ts a b rest h
    refine ⟨?_, ?_, ?_⟩ <;>
      simp [Cli.cmd_list, Cli.cmd_save, Cli.cmd_delete, Cli.parse_limit, h,
        Cli.targetFalsy]

/-- Witness for C3 at concrete inputs: `"42"` parses, `"abc"` does
not, and a non-numeric count makes `list` print its usage string. -/
theorem parse_limit_spec_witness :
    Cli.parse_limit state0 ["messages", "42"] = (some "messages", some 42) ∧
    Cli.parse_limit state0 ["messages", "abc"] = (none, none) ∧
    (Cli.cmd_list emptyFacade state0 ["messages", "abc"]).output =
      ["Usage: list messages|users [N]"] :=
  ⟨(parse_limit_spec state0).2.2.1 "messages" "42" [] 42 (by decide),
   (parse_limit_spec state0).2.2.2.1 "messages" "abc" [] (by decide),
   ((parse_limit_spec state0).2.2.2.2 emptyFacade "x" "messages" "abc" []
      (by decide)).1⟩

/-- Claim C8 counterexample: a supplied limit of `-1` is non-positive,
yet the stored default is `-1`, not 1000 (Python only replaces falsy
values, and `-1` is truthy); the startup limit is neither 1000 nor
positive. -/
theorem initState_negative_limit_kept :
    (Cli.initState (some (-1))).limit = -1 ∧
    (Cli.initState (some (-1))).limit ≠ 1000 ∧
    ¬ (0 < (Cli.initState (some (-1))).limit) := by decide

/-- Claim C8 (amended): the stored default limit equals the supplied
limit whenever that limit is present and non-zero (including negative
values, which are kept as-is), and equals 1000 when the supplied limit
is missing or zero; positivity of a supplied limit is not enforced. -/
theorem initState_limit_spec :
    (Cli.initState none).limit = 1000 ∧
    (Cli.initState (some 0)).limit = 1000 ∧
    (∀ l : Int, l ≠ 0 → (Cli.initState (some l)).limit = l) := by
  refine ⟨rfl, rfl, fun l h => ?_⟩
  simp [Cli.initState, Cli.initLimit, h]

/-- Witness for the amended C8: a supplied limit of 7 is stored
unchanged. -/
theorem initState_limit_spec_witness :
    (Cli.initState (some 7)).limit = 7 :=
  initState_limit_spec.2.2 7 (by decide)

/-- Claim C1: when the fetch for deletion returns a non-empty message
list, the shell passes the chat identifier and the fetched message ids
to the facade's bulk delete, and prints "Deleted <count> messages"
with the count the facade reports. -/
theorem delete_messages_nonempty_reports_count
    (f : Cli.Facade) (s : Cli.CliState) (chat_id n : Int)
    (h : f.get_all_messages chat_id n ≠ []) :
    (Cli.delete_messages f s chat_id n).output =
      ["Deleted " ++
        toString (f.delete_messages chat_id
          ((f.get_all_messages chat_id n).map (fun m => m.id))) ++ " messages"] ∧
    (Cli.delete_messages f s chat_id n).calls =
      [Cli.FacadeCall.getAllMessages chat_id n,
       Cli.FacadeCall.deleteMessages chat_id
         ((f.get_all_messages chat_id n).map (fun m => m.id))] ∧
    (Cli.delete_messages f s chat_id n).state = s := by
  cases hm : f.get_all_messages chat_id n with
  | nil => exact absurd hm h
  | cons m rest => simp [Cli.delete_messages, hm]

/-- Witness for C1: three fetched messages and a facade that reports
every requested id deleted yield the line "Deleted 3 messages". -/
theorem delete_messages_nonempty_witness :
    countingFacade.get_all_messages 5 3 ≠ [] ∧
    (Cli.delete_messages countingFacade stateSel 5 3).output =
      ["Deleted 3 messages"] := by
  have h : countingFacade.get_all_messages 5 3 ≠ [] := by decide
  refine ⟨h, ?_⟩
  rw [(delete_messages_nonempty_reports_count countingFacade stateSel 5 3 h).1]
  decide

/-- Claim C6: when the fetch for deletion returns zero messages, the
shell prints "No messages to delete." and never invokes the facade's
delete operation. -/
theorem delete_messages_empty_no_delete_call
    (f : Cli.Facade) (s : Cli.CliState) (chat_id n : Int)
    (h : f.get_all_messages chat_id n = []) :
    (Cli.delete_messages f s chat_id n).output = ["No messages to delete."] ∧
    (Cli.delete_messages f s chat_id n).calls =
      [Cli.FacadeCall.getAllMessages chat_id n] ∧
    (∀ (c : Int) (ids : List Int),
      Cli.FacadeCall.deleteMessages c ids ∉ (Cli.delete_messages f s chat_id n).calls) ∧
    (Cli.delete_messages f s chat_id n).state = s := by
  simp [Cli.delete_messages, h]

/-- Witness for C6: a facade with no messages makes the delete command
print "No messages to delete.". -/
theorem delete_messages_empty_witness :
    emptyFacade.get_all_messages 5 3 = [] ∧
    (Cli.delete_messages emptyFacade stateSel 5 3).output =
      ["No messages to delete."] :=
  ⟨rfl, (delete_messages_empty_no_delete_call emptyFacade stateSel 5 3 rfl).1⟩

/-- Claim C7: a list, save or delete command with a syntactically
valid (truthy) target while no chat is selected prints
"No chat selected", leaves the state unchanged, and issues no facade
call. -/
theorem no_chat_selected_aborts
    (f : Cli.Facade) (ts : String) (s : Cli.CliState) (args : List String)
    (t : String)
    (hc : s.current = none)
    (ht : (Cli.parse_limit s args).1 = some t) (hne : t ≠ "") :
    (Cli.cmd_list f s args).output = ["No chat selected"] ∧
    (Cli.cmd_list f s args).calls = [] ∧
    (Cli.cmd_list f s args).state = s ∧
    (Cli.cmd_save f ts s args).output = ["No chat selected"] ∧
    (Cli.cmd_save f ts s args).calls = [] ∧
    (Cli.cmd_save f ts s args).state = s ∧
    (Cli.cmd_delete f s args).output = ["No chat selected"] ∧
    (Cli.cmd_delete f s args).calls = [] ∧
    (Cli.cmd_delete f s args).state = s := by
  have h := cmd_no_chat_guard f ts s args t (by simp [Cli.currentFalsy, hc]) ht hne
  refine ⟨?_, ?_, ?_, ?_, ?_, ?_, ?_, ?_, ?_⟩ <;> simp [h.1, h.2.1, h.2.2]

/-- Witness for C7: `list messages` at the startup state (no chat ever
selected) prints "No chat selected" and issues no facade call. -/
theorem no_chat_selected_aborts_witness :
    state0.current = none ∧
    (Cli.cmd_list emptyFacade state0 ["messages"]).output = ["No chat selected"] ∧
    (Cli.cmd_list emptyFacade state0 ["messages"]).calls = [] := by
  have h := no_chat_selected_aborts emptyFacade "20240101000000" state0
    ["messages"] "messages" rfl (by decide) (by decide)
  exact ⟨rfl, h.1, h.2.1⟩

/-- Claim C5: when name resolution fails, the select command prints
"Chat not found." and leaves the session state (in particular the
current selection) unchanged; the selection is overwritten only when
resolution succeeds. -/
theorem cmd_sel_not_found_keeps_selection
    (f : Cli.Facade) (s : Cli.CliState) (args : List String)
    (hargs : args ≠ [])
    (h : f.get_chat_id (String.intercalate " " args) = none) :
    (Cli.cmd_sel f s args).output = ["Chat not found."] ∧
    (Cli.cmd_sel f s args).state = s ∧
    (∀ (g : Cli.Facade) (s2 : Cli.CliState) (args2 : List String),
      (Cli.cmd_sel g s2 args2).state.current ≠ s2.current →
      ∃ cid, g.get_chat_id (String.intercalate " " args2) = some cid) := by
  refine ⟨?_, ?_, ?_⟩
  · cases args with
    | nil => exact absurd rfl hargs
    | cons a rest => simp [Cli.cmd_sel, h]
  · cases args with
    | nil => exact absurd rfl hargs
    | cons a rest => simp [Cli.cmd_sel, h]
  · intro g s2 args2 hne
    cases args2 with
    | nil => simp [Cli.cmd_sel] at hne
    | cons a rest =>
      cases hg : g.get_chat_id (String.intercalate " " (a :: rest)) with
      | none => exact absurd (by simp [Cli.cmd_sel, hg]) hne
      | some cid => exact ⟨cid, rfl⟩

/-- Witness for C5: selecting "Team Chat" against a facade that knows
no chats prints "Chat not found." and keeps chat 42 selected. -/
theorem cmd_sel_not_found_witness :
    (Cli.cmd_sel emptyFacade stateSel ["Team", "Chat"]).output = ["Chat not found."] ∧
    (Cli.cmd_sel emptyFacade stateSel ["Team", "Chat"]).state = stateSel := by
  have h := cmd_sel_not_found_keeps_selection emptyFacade stateSel
    ["Team", "Chat"] (by decide) rfl
  exact ⟨h.1, h.2.1⟩

/-- Claim C10: when resolution yields the identifier 0, the select
command records it and prints confirmation, yet every subsequent list,
save or delete command with a valid target tests the selection's
truthiness, treats it as absent, prints "No chat selected" and issues
no facade call. -/
theorem zero_chat_id_selected_then_treated_absent
    (f : Cli.Facade) (ts : String) (s s2 : Cli.CliState)
    (args args2 : List String) (t : String)
    (hargs : args ≠ [])
    (h0 : f.get_chat_id (String.intercalate " " args) = some 0)
    (hc : s2.current = some 0)
    (ht : (Cli.parse_limit s2 args2).1 = some t) (hne : t ≠ "") :
    (Cli.cmd_sel f s args).state.current = some 0 ∧
    (Cli.cmd_sel f s args).output =
      ["Chat selected: " ++ String.intercalate " " args] ∧
    (Cli.cmd_list f s2 args2).output = ["No chat selected"] ∧
    (Cli.cmd_list f s2 args2).calls = [] ∧
    (Cli.cmd_save f ts s2 args2).output = ["No chat selected"] ∧
    (Cli.cmd_save f ts s2 args2).calls = [] ∧
    (Cli.cmd_delete f s2 args2).output = ["No chat selected"] ∧
    (Cli.cmd_delete f s2 args2).calls = [] := by
  have h := cmd_no_chat_guard f ts s2 args2 t (by simp [Cli.currentFalsy, hc]) ht hne
  cases args with
  | nil => exact absurd rfl hargs
  | cons a rest =>
    refine ⟨?_, ?_, ?_, ?_, ?_, ?_, ?_, ?_⟩ <;>
      simp [Cli.cmd_sel, h0, h.1, h.2.1, h.2.2]

/-- Witness for C10: a facade resolving every name to 0 makes select
record chat 0 and print confirmation, after which `list messages`
prints "No chat selected" and calls nothing. -/
theorem zero_chat_id_witness :
    (Cli.cmd_sel zeroFacade state0 ["Team", "Chat"]).state.current = some 0 ∧
    (Cli.cmd_list zeroFacade (Cli.cmd_sel zeroFacade state0 ["Team", "Chat"]).state
      ["messages"]).output = ["No chat selected"] ∧
    (Cli.cmd_list zeroFacade (Cli.cmd_sel zeroFacade state0 ["Team", "Chat"]).state
      ["messages"]).calls = [] := by
  have h := zero_chat_id_selected_then_treated_absent zeroFacade "20240101000000"
    state0 (Cli.cmd_sel zeroFacade state0 ["Team", "Chat"]).state
    ["Team", "Chat"] ["messages"] "messages" (by decide) rfl rfl (by decide) (by decide)
  exact ⟨h.1, h.2.2.1, h.2.2.2.1⟩

/-- Claim C9: saving messages writes a JSON array with one element per
fetched message; each element has exactly the keys `id`, `from`,
`text`, `date`, and its `date` is the ISO rendering of the message's
timestamp, or null when the message has none. -/
theorem save_messages_roundtrip
    (f : Cli.Facade) (ts : String) (s : Cli.CliState) (chat_id n : Int) :
    (Cli.save_messages f ts s chat_id n).files =
      [("out/messages_" ++ ts ++ ".json",
        Json.arr (Cli.save_messages_data (f.get_all_messages chat_id n)))] ∧
    (Cli.save_messages_data (f.get_all_messages chat_id n)).length =
      (f.get_all_messages chat_id n).length ∧
    List.Forall₂
      (fun (j : Json) (m : Message) =>
        Json.keys j = ["id", "from", "text", "date"] ∧
        Json.lookupKey j "date" =
          some (match m.date with
            | some d => Json.str (DateTime.isoformat d)
            | none => Json.null))
      (Cli.save_messages_data (f.get_all_messages chat_id n))
      (f.get_all_messages chat_id n) := by
  refine ⟨rfl, by simp [Cli.save_messages_data], ?_⟩
  generalize f.get_all_messages chat_id n = msgs
  induction msgs with
  | nil => exact List.Forall₂.nil
  | cons m rest ih =>
    obtain ⟨mid, msender, mtext, mdate⟩ := m
    refine List.Forall₂.cons ⟨rfl, ?_⟩ ih
    cases mdate <;> rfl

end PolitoDebate
